import Mathlib

/-
  Verification of the landroid_cloud integration (custom_components/landroid_cloud).

  The development embeds the adapter class LandroidAPI from api.py: its feature
  resolver check_features, its readiness gate async_await_features, and the
  data-received republisher receive_data; plus the CONFIG_SCHEME of
  devices/landxcape.py.  Machine integers are modelled as Int (Python ints are
  arbitrary precision); bitwise OR is Int.lor.  Constants that live in const.py
  (not part of the sources shown) are modelled from the spec and marked so.
-/

namespace LandroidCloud

/- Modelled from the spec: const.py is not among the shown sources.  The spec
lists the feature mask as one bit per optional feature in the order mower,
button, lock, config, restart, select, set-zone, schedules, party-mode, OTS,
edge-cut, torque; bits are pre-assigned per feature. -/
namespace LandroidFeatureSupport

def MOWER : Int := 1

def BUTTON : Int := 2

def LOCK : Int := 4

def CONFIG : Int := 8

def RESTART : Int := 16

def SELECT : Int := 32

def SETZONE : Int := 64

def SCHEDULES : Int := 128

def PARTYMODE : Int := 256

def OTS : Int := 512

def EDGECUT : Int := 1024

def TORQUE : Int := 2048

end LandroidFeatureSupport

/-- The externally owned device handle, restricted to what api.py reads: the
online flag, the capability report with its ready flag, and the results of the
four capability checks capabilities.check(DeviceCapability.X) that
check_features performs (PARTY_MODE, ONE_TIME_SCHEDULE, EDGE_CUT, TORQUE). -/
structure DeviceState where
  online : Bool
  capabilities_ready : Bool
  cap_party : Bool
  cap_ots : Bool
  cap_edge : Bool
  cap_torque : Bool
deriving DecidableEq

/-- The mutable fields of LandroidAPI relevant to the embedded methods, from
LandroidAPI.__init__ in api.py: features (initialised 0), features_loaded
(initialised False), the device handle, the slugified name, the friendly name,
device_id, and the list of callback registrations made in __init__. -/
structure APIState where
  features : Int
  features_loaded : Bool
  device : DeviceState
  name : String
  friendly_name : String
  device_id : Option Nat
  callbacks : List String
deriving DecidableEq

/-- The bits that the four capability checks of check_features can set:
PARTYMODE for PARTY_MODE, OTS for ONE_TIME_SCHEDULE, EDGECUT for EDGE_CUT,
TORQUE for TORQUE. -/
def capability_bits (d : DeviceState) : Int :=
  Int.lor
    (Int.lor
      (Int.lor (if d.cap_party then LandroidFeatureSupport.PARTYMODE else 0)
        (if d.cap_ots then LandroidFeatureSupport.OTS else 0))
      (if d.cap_edge then LandroidFeatureSupport.EDGECUT else 0))
    (if d.cap_torque then LandroidFeatureSupport.TORQUE else 0)

/-- Result of a call to LandroidAPI.check_features: the updated adapter state
and the list of arguments the completion callback was invoked with. -/
structure CheckResult where
  state : APIState
  callback_calls : List Int
deriving DecidableEq

/-- LandroidAPI.check_features from api.py.  For each of the four capability
checks that holds, the corresponding bit is ORed into the working mask; the
result replaces self.features, and when a callback was supplied (truthy
callback_func) it is invoked once with the previous value of self.features.
Logging calls are omitted as pure log-sink effects. -/
def check_features (s : APIState) (features : Int) (has_callback : Bool) :
    CheckResult :=
  let features :=
    if s.device.cap_party then Int.lor features LandroidFeatureSupport.PARTYMODE
    else features
  let features :=
    if s.device.cap_ots then Int.lor features LandroidFeatureSupport.OTS
    else features
  let features :=
    if s.device.cap_edge then Int.lor features LandroidFeatureSupport.EDGECUT
    else features
  let features :=
    if s.device.cap_torque then Int.lor features LandroidFeatureSupport.TORQUE
    else features
  let old_feature := s.features
  { state := { s with features := features }
    callback_calls := if has_callback then [old_feature] else [] }

/-- The three values the ValueError of async_await_features carries:
capabilities.ready, features_loaded, and the feature bitmask. -/
structure AwaitError where
  capabilities_ready : Bool
  features_loaded : Bool
  features : Int
deriving DecidableEq

/-- Outcome of async_await_features: raise the diagnostic ValueError, or
succeed having bound the host event loop to the device MQTT transport via
set_eventloop, or still be looping (fuel exhausted in the model). -/
inductive AwaitOutcome where
  | raise : AwaitError → AwaitOutcome
  | bindEventloop : AwaitOutcome
  | running : AwaitOutcome
deriving DecidableEq

/-- Environment of a call to async_await_features: the value of
self.features_loaded observed at each iteration of the wait loop, the value of
datetime.now() observed at each iteration, and the adapter and device state
read after the loop (capabilities.ready, features_loaded, features). -/
structure AwaitEnv where
  loadedAt : Nat → Bool
  nowAt : Nat → Nat
  post : AwaitError

/-- The wait loop of async_await_features: while not self.features_loaded,
compare datetime.now() against timeout_at and break once it is exceeded.
Returns the index of the iteration at which the loop exits, or none when the
fuel runs out before it exits. -/
def await_loop (loadedAt : Nat → Bool) (nowAt : Nat → Nat) (timeout_at : Nat) :
    Nat → Nat → Option Nat
  | 0, _ => none
  | fuel + 1, n =>
    if loadedAt n then some n
    else if timeout_at < nowAt n then some n
    else await_loop loadedAt nowAt timeout_at fuel (n + 1)

/-- Actions a wait-loop iteration performs, for the concurrency analysis: read
the features_loaded flag, read the clock, or suspend cooperatively (yield or
sleep, handing control back to the event loop). -/
inductive LoopAction where
  | readFlag : LoopAction
  | readClock : LoopAction
  | suspend : LoopAction
deriving DecidableEq, BEq

/-- The trace of actions the wait loop of async_await_features performs, one
sublist per iteration, faithful to the loop body in api.py: each iteration
evaluates the loop condition (a flag read) and, unless the flag ended the
loop, reads the clock for the deadline comparison.  The body contains no
await and no sleep. -/
def await_loop_trace (loadedAt : Nat → Bool) (nowAt : Nat → Nat)
    (timeout_at : Nat) : Nat → Nat → List LoopAction
  | 0, _ => []
  | fuel + 1, n =>
    if loadedAt n then [LoopAction.readFlag]
    else if timeout_at < nowAt n then [LoopAction.readFlag, LoopAction.readClock]
    else [LoopAction.readFlag, LoopAction.readClock]
      ++ await_loop_trace loadedAt nowAt timeout_at fuel (n + 1)

/-- LandroidAPI.async_await_features from api.py.  Computes
timeout_at = now + timeout, runs the wait loop, and after the loop raises the
diagnostic ValueError when capabilities.ready is false or features_loaded is
false or features equals 0; otherwise calls set_eventloop on the device MQTT
transport and returns. -/
def async_await_features (env : AwaitEnv) (now0 timeout fuel : Nat) :
    AwaitOutcome :=
  let timeout_at := now0 + timeout
  match await_loop env.loadedAt env.nowAt timeout_at fuel 0 with
  | none => AwaitOutcome.running
  | some _ =>
    if !env.post.capabilities_ready || !env.post.features_loaded
        || env.post.features == 0 then
      AwaitOutcome.raise
        ⟨env.post.capabilities_ready, env.post.features_loaded,
          env.post.features⟩
    else AwaitOutcome.bindEventloop

/-- The await environment induced by a fixed adapter state: all methods run on
the single cooperative loop, so the flag observed at each iteration and the
post-loop reads all come from the same state. -/
def envOfState (s : APIState) (nowAt : Nat → Nat) : AwaitEnv :=
  { loadedAt := fun _ => s.features_loaded
    nowAt := nowAt
    post := ⟨s.device.capabilities_ready, s.features_loaded, s.features⟩ }

/-- Modelled from the spec: homeassistant.util.slugify is host-platform code
outside this repository.  The spec describes it as a deterministic,
case-normalized slugification: lower-case the text and turn each run of
non-alphanumeric characters into a single underscore, with no leading or
trailing underscore (example: "My Mower 1" becomes "my_mower_1"). -/
def util_slugify (s : String) : String :=
  String.intercalate "_"
    ((((s.toList.map Char.toLower).splitOnP
        (fun c => !c.isAlphanum)).filter (fun w => !w.isEmpty)).map
      (fun w => String.mk w))

/-- Modelled from the spec: UPDATE_SIGNAL lives in const.py, which is not among
the shown sources; the spec gives the fixed update-signal prefix as
"landroid_cloud_state_update". -/
def UPDATE_SIGNAL : String := "landroid_cloud_state_update"

/-- Effects LandroidAPI.receive_data performs on the host platform: a log line
and a dispatcher_send on the publish/subscribe bus. -/
inductive HassEffect where
  | log : String → HassEffect
  | dispatch : String → HassEffect
deriving DecidableEq

/-- LandroidAPI.receive_data from api.py: logs the incoming update for the
named device and republishes the signal slugify(UPDATE_SIGNAL + "_" + name)
via dispatcher_send. -/
def receive_data (name : String) : List HassEffect :=
  [HassEffect.log (util_slugify (UPDATE_SIGNAL ++ "_" ++ name)),
    HassEffect.dispatch (util_slugify (UPDATE_SIGNAL ++ "_" ++ name))]

/-- The signals dispatched on the bus by a list of effects. -/
def dispatched (effs : List HassEffect) : List String :=
  effs.filterMap fun e =>
    match e with
    | HassEffect.dispatch sig => some sig
    | _ => none

/-- An input mapping offered to CONFIG_SCHEME of devices/landxcape.py: all
four fields are vol.Optional.  Values for the two integer fields are taken
after vol.Coerce(int). -/
structure ConfigInput where
  raindelay : Option Int
  timeextension : Option Int
  multizone_distances : Option String
  multizone_probabilities : Option String
deriving DecidableEq

/-- The validator vol.Range(lo, hi) of voluptuous: accepts values in the
inclusive range lo..hi. -/
def vol_range (lo hi v : Int) : Bool :=
  decide (lo ≤ v) && decide (v ≤ hi)

/-- CONFIG_SCHEME of devices/landxcape.py: raindelay must satisfy
vol.Range(0, 300), timeextension must satisfy vol.Range(-100, 100); the two
multizone fields are plain strings; every field is optional. -/
def config_scheme_valid (c : ConfigInput) : Bool :=
  (match c.raindelay with
    | none => true
    | some v => vol_range 0 300 v)
  && (match c.timeextension with
    | none => true
    | some v => vol_range (-100) 100 v)

/-- Sample device handle: capability report ready, none of the four optional
capabilities present. -/
def sample_device : DeviceState :=
  ⟨true, true, false, false, false, false⟩

/-- Sample adapter state right after LandroidAPI.__init__: features 0,
features_loaded false, the four callback registrations made in __init__. -/
def sample_state : APIState :=
  ⟨0, false, sample_device, "mower_1", "Mower 1", none,
    ["DATA_RECEIVED", "MQTT_RATELIMIT", "MQTT_PUBLISH", "LOG"]⟩

/-- Sample adapter state whose device is party-mode capable. -/
def stale_state : APIState :=
  { sample_state with device := { sample_device with cap_party := true } }

/-- The party-mode-capable adapter state after the features_loaded flag has
been set by the integration setup. -/
def ready_state : APIState :=
  { stale_state with features_loaded := true }

/-- An await environment in which the features_loaded flag never becomes true
and the clock advances one unit per loop iteration. -/
def timeout_env : AwaitEnv :=
  { loadedAt := fun _ => false
    nowAt := fun n => n
    post := ⟨true, false, 0⟩ }

/-- An await environment in which the flag is already set at call time, the
capability report is ready and the mask is non-zero. -/
def ready_env : AwaitEnv :=
  { loadedAt := fun _ => true
    nowAt := fun n => n
    post := ⟨true, true, LandroidFeatureSupport.TORQUE⟩ }

lemma int_testBit_ofNat (n i : Nat) :
    Int.testBit (Int.ofNat n) i = Nat.testBit n i := rfl

lemma int_testBit_two_pow (k i : Nat) :
    Int.testBit (Int.ofNat (2 ^ k)) i = decide (i = k) := by
  rw [int_testBit_ofNat, Nat.testBit_two_pow]
  simp [eq_comm]

lemma testBit_PARTYMODE (i : Nat) :
    Int.testBit LandroidFeatureSupport.PARTYMODE i = decide (i = 8) := by
  have h : LandroidFeatureSupport.PARTYMODE = Int.ofNat (2 ^ 8) := by
    unfold LandroidFeatureSupport.PARTYMODE; norm_num
  rw [h, int_testBit_two_pow]

lemma testBit_OTS (i : Nat) :
    Int.testBit LandroidFeatureSupport.OTS i = decide (i = 9) := by
  have h : LandroidFeatureSupport.OTS = Int.ofNat (2 ^ 9) := by
    unfold LandroidFeatureSupport.OTS; norm_num
  rw [h, int_testBit_two_pow]

lemma testBit_EDGECUT (i : Nat) :
    Int.testBit LandroidFeatureSupport.EDGECUT i = decide (i = 10) := by
  have h : LandroidFeatureSupport.EDGECUT = Int.ofNat (2 ^ 10) := by
    unfold LandroidFeatureSupport.EDGECUT; norm_num
  rw [h, int_testBit_two_pow]

lemma testBit_TORQUE (i : Nat) :
    Int.testBit LandroidFeatureSupport.TORQUE i = decide (i = 11) := by
  have h : LandroidFeatureSupport.TORQUE = Int.ofNat (2 ^ 11) := by
    unfold LandroidFeatureSupport.TORQUE; norm_num
  rw [h, int_testBit_two_pow]

/-- Bit-level characterisation of the mask computed by check_features: a bit
is set in the stored mask exactly when it was set in the input mask or it is
the pre-assigned bit of a capability check that held. -/
lemma check_features_testBit (s : APIState) (f : Int) (b : Bool) (i : Nat) :
    Int.testBit (check_features s f b).state.features i
      = (Int.testBit f i
          || (s.device.cap_party && decide (i = 8))
          || (s.device.cap_ots && decide (i = 9))
          || (s.device.cap_edge && decide (i = 10))
          || (s.device.cap_torque && decide (i = 11))) := by
  rcases s with ⟨fs, fl, ⟨ol, rd, p, o, e, t⟩, nm, fn, di, cb⟩
  cases p <;> cases o <;> cases e <;> cases t <;>
    simp [check_features, Int.testBit_lor, testBit_PARTYMODE, testBit_OTS,
      testBit_EDGECUT, testBit_TORQUE, Bool.or_assoc]

/-- When the features_loaded flag never becomes true, the wait loop exits at
the first iteration whose clock reading exceeds the deadline, provided such an
iteration lies within the available fuel. -/
lemma await_loop_exit_of_never (L : Nat → Bool) (N : Nat → Nat) (ta : Nat)
    (hL : ∀ n, L n = false) :
    ∀ fuel n0 j, n0 ≤ j → j < n0 + fuel → ta < N j →
      ∃ n, n0 ≤ n ∧ n ≤ j ∧ await_loop L N ta fuel n0 = some n
        ∧ ta < N n ∧ ∀ m, n0 ≤ m → m < n → N m ≤ ta := by
  intro fuel
  induction fuel with
  | zero =>
    intro n0 j h1 h2 h3
    omega
  | succ fuel ih =>
    intro n0 j h1 h2 h3
    by_cases hn : ta < N n0
    · refine ⟨n0, Nat.le_refl _, h1, ?_, hn, ?_⟩
      · simp [await_loop, hL n0, hn]
      · intro m hm1 hm2
        omega
    · have hj : n0 + 1 ≤ j := by
        rcases Nat.eq_or_lt_of_le h1 with he | hl2
        · exact absurd (he ▸ h3) hn
        · exact hl2
      obtain ⟨n, hn1, hn2, hloop, hlt, hmin⟩ := ih (n0 + 1) j hj (by omega) h3
      refine ⟨n, by omega, hn2, ?_, hlt, ?_⟩
      · simp [await_loop, hL n0, hn, hloop]
      · intro m hm1 hm2
        rcases Nat.eq_or_lt_of_le hm1 with he | hl2
        · rw [← he]
          omega
        · exact hmin m hl2 hm2

/-- Once the wait loop has exited, async_await_features raises the diagnostic
ValueError exactly when one of the three post-loop checks fails, and succeeds
with the set_eventloop binding otherwise. -/
lemma async_await_features_of_exit (env : AwaitEnv) (now0 t fuel k : Nat)
    (hk : await_loop env.loadedAt env.nowAt (now0 + t) fuel 0 = some k) :
    async_await_features env now0 t fuel
      = if env.post.capabilities_ready = false ∨ env.post.features_loaded = false
            ∨ env.post.features = 0
        then AwaitOutcome.raise
          ⟨env.post.capabilities_ready, env.post.features_loaded,
            env.post.features⟩
        else AwaitOutcome.bindEventloop := by
  unfold async_await_features
  simp only []
  rw [hk]
  rcases hr : env.post.capabilities_ready <;>
    rcases hl : env.post.features_loaded <;>
      by_cases hf : env.post.features = 0 <;>
        simp [hr, hl, hf]

/-- C1 (counterexample): the claim that after check_features the stored mask
contains exactly the bits of the true capability checks and no other bits, for
every integer input mask, is false: with all four checks false and input mask
1, the stored mask is 1 while the checks contribute no bits at all. -/
theorem check_features_exact_bits_refuted :
    ¬ ∀ (s : APIState) (f : Int) (b : Bool),
        (check_features s f b).state.features = capability_bits s.device := by
  intro h
  exact absurd (h sample_state 1 false) (by decide)

/-- C1 (amended): after check_features runs, the stored feature mask contains
exactly the bits of the input mask together with the pre-assigned bits of the
capability checks that were true (PARTYMODE bit 8, OTS bit 9, EDGECUT bit 10,
TORQUE bit 11), and no other bits. -/
theorem check_features_mask_bits (s : APIState) (f : Int) (b : Bool) (i : Nat) :
    Int.testBit (check_features s f b).state.features i
      = (Int.testBit f i
          || (s.device.cap_party && decide (i = 8))
          || (s.device.cap_ots && decide (i = 9))
          || (s.device.cap_edge && decide (i = 10))
          || (s.device.cap_torque && decide (i = 11))) :=
  check_features_testBit s f b i

/-- C2: every bit of the input mask is present in the mask stored by
check_features (bits are only set, never cleared, within a call); the stored
mask does not depend on the previously stored mask, which is discarded
wholesale; and the previous mask is the value handed to the callback. -/
theorem check_features_superset_replaces (s : APIState) (f x : Int) (b : Bool)
    (i : Nat) :
    (Int.testBit f i = true →
      Int.testBit (check_features s f b).state.features i = true)
    ∧ (check_features { s with features := x } f b).state.features
        = (check_features s f b).state.features
    ∧ (check_features s f true).callback_calls = [s.features] := by
  refine ⟨?_, ?_, rfl⟩
  · intro hf
    rw [check_features_testBit, hf]
    simp
  · simp [check_features]

/-- C2 (witness): at a concrete adapter state and input mask 3, bit 0 of the
input survives into the stored mask. -/
theorem check_features_superset_replaces_witness :
    Int.testBit (check_features sample_state 3 true).state.features 0 = true :=
  (check_features_superset_replaces sample_state 3 5 true 0).1 (by decide)

/-- C3: when a truthy completion callback is supplied, check_features invokes
it exactly once, with the mask value stored immediately before that call: at
the initial state the callback receives the initial mask, with no callback
nothing is invoked, and on a second call the callback receives the mask left
by the first call. -/
theorem check_features_callback_previous_mask (s : APIState) (f g : Int)
    (b : Bool) :
    (check_features s f true).callback_calls = [s.features]
    ∧ (check_features s f false).callback_calls = []
    ∧ (check_features (check_features s f b).state g true).callback_calls
        = [(check_features s f b).state.features] :=
  ⟨rfl, rfl, rfl⟩

/-- C10: check_features mutates only the features field of the adapter state;
the features_loaded flag, the device handle, the names, the device id and the
registered callbacks are all unchanged, for every input mask, capability
combination and callback argument. -/
theorem check_features_frame (s : APIState) (f : Int) (b : Bool) :
    (check_features s f b).state.features_loaded = s.features_loaded
    ∧ (check_features s f b).state.device = s.device
    ∧ (check_features s f b).state.name = s.name
    ∧ (check_features s f b).state.friendly_name = s.friendly_name
    ∧ (check_features s f b).state.device_id = s.device_id
    ∧ (check_features s f b).state.callbacks = s.callbacks :=
  ⟨rfl, rfl, rfl, rfl, rfl, rfl⟩

/-- C4: once its wait loop has exited, async_await_features either raises the
single diagnostic ValueError carrying the capability-ready flag, the
features-loaded flag and the feature bitmask, or succeeds; it raises exactly
when the capability report is not ready, or the flag is not set, or the mask
is zero.  When all three conditions hold at call time (flag already set), the
loop exits immediately at iteration 0 and the call succeeds with the
set_eventloop binding. -/
theorem async_await_features_error_spec :
    (∀ (env : AwaitEnv) (now0 t fuel k : Nat),
      await_loop env.loadedAt env.nowAt (now0 + t) fuel 0 = some k →
        (async_await_features env now0 t fuel
            = AwaitOutcome.raise
                ⟨env.post.capabilities_ready, env.post.features_loaded,
                  env.post.features⟩
          ∨ async_await_features env now0 t fuel = AwaitOutcome.bindEventloop)
        ∧ (async_await_features env now0 t fuel
              = AwaitOutcome.raise
                  ⟨env.post.capabilities_ready, env.post.features_loaded,
                    env.post.features⟩
            ↔ (env.post.capabilities_ready = false
                ∨ env.post.features_loaded = false ∨ env.post.features = 0)))
    ∧ (∀ (env : AwaitEnv) (now0 t fuel : Nat),
        0 < fuel → env.loadedAt 0 = true →
        env.post.capabilities_ready = true →
        env.post.features_loaded = true → env.post.features ≠ 0 →
        await_loop env.loadedAt env.nowAt (now0 + t) fuel 0 = some 0
        ∧ async_await_features env now0 t fuel
            = AwaitOutcome.bindEventloop) := by
  constructor
  · intro env now0 t fuel k hk
    rw [async_await_features_of_exit env now0 t fuel k hk]
    by_cases hc : env.post.capabilities_ready = false
        ∨ env.post.features_loaded = false ∨ env.post.features = 0
    · rw [if_pos hc]
      exact ⟨Or.inl rfl, ⟨fun _ => hc, fun _ => rfl⟩⟩
    · rw [if_neg hc]
      exact ⟨Or.inr rfl, ⟨fun h => absurd h (by simp), fun h => absurd h hc⟩⟩
  · intro env now0 t fuel hfuel hl0 hr hl hf
    have hexit : await_loop env.loadedAt env.nowAt (now0 + t) fuel 0
        = some 0 := by
      cases fuel with
      | zero => omega
      | succ fuel => simp [await_loop, hl0]
    refine ⟨hexit, ?_⟩
    rw [async_await_features_of_exit env now0 t fuel 0 hexit]
    rw [if_neg]
    simp [hr, hl, hf]

/-- C4 (witness): with the flag set, the report ready and a non-zero mask at
call time, a concrete call succeeds with the set_eventloop binding. -/
theorem async_await_features_error_spec_witness :
    async_await_features ready_env 0 10 1 = AwaitOutcome.bindEventloop :=
  (async_await_features_error_spec.2 ready_env 0 10 1 (by decide) rfl rfl rfl
    (by decide)).2

/-- C5 (counterexample): running check_features on a fresh party-mode-capable
adapter leaves a non-zero stored mask and the capability report is ready, yet
async_await_features raises the diagnostic error, because check_features never
sets the features_loaded flag. -/
theorem await_after_check_features_refuted :
    (check_features stale_state 0 false).state.features ≠ 0
    ∧ stale_state.device.capabilities_ready = true
    ∧ async_await_features
        (envOfState (check_features stale_state 0 false).state (fun n => n))
        0 3 10
        = AwaitOutcome.raise ⟨true, false, 256⟩ := by
  refine ⟨by decide, rfl, by decide⟩

/-- C5 (amended): after check_features has run leaving a non-zero stored mask,
with the capability report ready, async_await_features returns without error
provided the features_loaded flag has additionally been set; the resolver
itself does not set that flag, so this extra state change is required between
the resolver call and the gate call. -/
theorem await_after_check_features_loaded (s : APIState) (f : Int) (b : Bool)
    (nowF : Nat → Nat) (now0 t fuel : Nat) (hfuel : 0 < fuel)
    (hl : s.features_loaded = true) (hr : s.device.capabilities_ready = true)
    (hf : (check_features s f b).state.features ≠ 0) :
    async_await_features (envOfState (check_features s f b).state nowF)
      now0 t fuel = AwaitOutcome.bindEventloop := by
  have hl2 : (check_features s f b).state.features_loaded = true := hl
  have hr2 : (check_features s f b).state.device.capabilities_ready
      = true := hr
  have hexit : await_loop
      (envOfState (check_features s f b).state nowF).loadedAt
      (envOfState (check_features s f b).state nowF).nowAt
      (now0 + t) fuel 0 = some 0 := by
    cases fuel with
    | zero => omega
    | succ fuel => simp [await_loop, envOfState, hl2]
  rw [async_await_features_of_exit _ now0 t fuel 0 hexit]
  rw [if_neg]
  simp [envOfState, hr2, hl2, hf]

/-- C5 (witness): a concrete adapter state with the flag set, the report ready
and a party-mode capability succeeds through the gate after the resolver. -/
theorem await_after_check_features_loaded_witness :
    async_await_features
      (envOfState (check_features ready_state 0 false).state (fun n => n))
      0 3 10 = AwaitOutcome.bindEventloop :=
  await_after_check_features_loaded ready_state 0 false (fun n => n) 0 3 10
    (by decide) rfl rfl (by decide)

/-- C6: for every timeout, when the features_loaded flag never becomes set,
the wait loop terminates: it exits at the first iteration whose clock reading
exceeds the deadline computed as call time plus the timeout (every earlier
iteration was still at or before the deadline), and the diagnostic error is
then raised. -/
theorem await_timeout_terminates_raises (env : AwaitEnv) (now0 t k : Nat)
    (hL : ∀ n, env.loadedAt n = false)
    (hpost : env.post.features_loaded = false)
    (hk : now0 + t < env.nowAt k) :
    ∃ n, n ≤ k
      ∧ await_loop env.loadedAt env.nowAt (now0 + t) (k + 1) 0 = some n
      ∧ now0 + t < env.nowAt n
      ∧ (∀ m, m < n → env.nowAt m ≤ now0 + t)
      ∧ async_await_features env now0 t (k + 1)
          = AwaitOutcome.raise
              ⟨env.post.capabilities_ready, env.post.features_loaded,
                env.post.features⟩ := by
  obtain ⟨n, _, hn2, hloop, hlt, hmin⟩ :=
    await_loop_exit_of_never env.loadedAt env.nowAt (now0 + t) hL (k + 1) 0 k
      (Nat.zero_le k) (by omega) hk
  refine ⟨n, hn2, hloop, hlt, ?_, ?_⟩
  · intro m hm
    exact hmin m (Nat.zero_le m) hm
  · rw [async_await_features_of_exit env now0 t (k + 1) n hloop]
    rw [if_pos (Or.inr (Or.inl hpost))]

/-- C6 (witness): with the flag never set, a one-unit-per-iteration clock and
timeout 3, the concrete call raises the diagnostic error once the clock
passes the deadline. -/
theorem await_timeout_terminates_raises_witness :
    async_await_features timeout_env 0 3 (4 + 1)
      = AwaitOutcome.raise ⟨true, false, 0⟩ := by
  obtain ⟨n, _, _, _, _, h⟩ :=
    await_timeout_terminates_raises timeout_env 0 3 4 (fun n => rfl) rfl
      (by decide)
  exact h

/-- C7: the wait loop of async_await_features never performs a cooperative
suspension: for every flag trajectory, clock, deadline, fuel and start index,
its action trace contains flag reads and clock reads only, and no suspend
action, so the loop spins without handing control back to the event loop. -/
theorem await_loop_never_suspends (L : Nat → Bool) (N : Nat → Nat)
    (ta fuel n0 : Nat) :
    (await_loop_trace L N ta fuel n0).count LoopAction.suspend = 0 := by
  induction fuel generalizing n0 with
  | zero => rfl
  | succ fuel ih =>
    unfold await_loop_trace
    by_cases h1 : L n0 = true
    · rw [if_pos h1]
      rfl
    · rw [if_neg h1]
      by_cases h2 : ta < N n0
      · rw [if_pos h2]
        rfl
      · rw [if_neg h2, List.count_append, ih]
        rfl

/-- C8: the signal republished by receive_data is the deterministic,
case-normalized slugification of the fixed update-signal prefix joined to the
device name by an underscore, and the device name "My Mower 1" yields exactly
the signal "landroid_cloud_state_update_my_mower_1". -/
theorem receive_data_dispatch_signal :
    (∀ name, dispatched (receive_data name)
        = [util_slugify (UPDATE_SIGNAL ++ "_" ++ name)])
    ∧ dispatched (receive_data "My Mower 1")
        = ["landroid_cloud_state_update_my_mower_1"] := by
  refine ⟨fun name => rfl, ?_⟩
  rfl

/-- C9: CONFIG_SCHEME accepts a rain-delay value exactly when it lies in the
inclusive range 0..300 and a time-extension value exactly when it lies in the
inclusive range -100..100, for every input combination; in particular it
accepts rain-delay 300 and rejects 301, and accepts time-extension 100 and
-100 while rejecting 101. -/
theorem config_scheme_ranges :
    (∀ c : ConfigInput, config_scheme_valid c
        = ((match c.raindelay with
            | none => true
            | some v => decide (0 ≤ v ∧ v ≤ 300))
          && (match c.timeextension with
            | none => true
            | some v => decide (-100 ≤ v ∧ v ≤ 100))))
    ∧ config_scheme_valid ⟨some 300, none, none, none⟩ = true
    ∧ config_scheme_valid ⟨some 301, none, none, none⟩ = false
    ∧ config_scheme_valid ⟨none, some 100, none, none⟩ = true
    ∧ config_scheme_valid ⟨none, some (-100), none, none⟩ = true
    ∧ config_scheme_valid ⟨none, some 101, none, none⟩ = false := by
  refine ⟨?_, by decide, by decide, by decide, by decide, by decide⟩
  intro c
  rcases c with ⟨rd, te, m1, m2⟩
  rcases rd with _ | v <;> rcases te with _ | w <;>
    simp [config_scheme_valid, vol_range]

end LandroidCloud
